import Mathlib

/-
Verification development for the `bevy_color_blindness` crate
(`crates/bevy_color_blindness/src/lib.rs`): a post-processing plugin that
simulates color vision deficiencies.  The definitions below are a shallow
embedding of the data model and the three ECS systems of the crate:
`ColorBlindnessMode::percentages`, `ColorBlindnessMode::cycle`,
`update_percentages`, `setup_new_color_blindness_cameras` and
`update_image_to_window_size`.  The `f32` matrix constants are embedded as
exact rationals (all source literals are short decimals); machine integers
(`u32` sizes, `isize` priorities) are embedded as `Nat`/`Int`; fallible
operations (the `expect`/`unwrap` panics of the source) are embedded as
`Except String`, carrying the panic messages of the source.
-/

set_option maxRecDepth 10000

namespace ColorBlindness

/-- The nine color blindness simulation modes supported by the crate
(`enum ColorBlindnessMode`). -/
inductive ColorBlindnessMode
  | Normal
  | Protanopia
  | Protanomaly
  | Deuteranopia
  | Deuteranomaly
  | Tritanopia
  | Tritanomaly
  | Achromatopsia
  | Achromatomaly
  deriving DecidableEq

/-- Three-component vector (`bevy_math::Vec3`).  The source stores `f32`;
all literals appearing in the crate are short decimal constants, embedded
here as exact rationals. -/
structure Vec3 where
  x : ℚ
  y : ℚ
  z : ℚ
  deriving DecidableEq

/-- `Vec3::X` -/
def Vec3.X : Vec3 := ⟨1, 0, 0⟩

/-- `Vec3::Y` -/
def Vec3.Y : Vec3 := ⟨0, 1, 0⟩

/-- `Vec3::Z` -/
def Vec3.Z : Vec3 := ⟨0, 0, 1⟩

/-- Sum of the three components of a row; used to state the row-sum
property of the mixing table. -/
def Vec3.sum (v : Vec3) : ℚ := v.x + v.y + v.z

/-- `struct ColorBlindnessPercentages`: how to mix the RGB channels to
obtain output colors (one row per output channel). -/
structure ColorBlindnessPercentages where
  red : Vec3
  green : Vec3
  blue : Vec3
  deriving DecidableEq

/-- `ColorBlindnessPercentages::new` -/
def ColorBlindnessPercentages.new (red green blue : Vec3) : ColorBlindnessPercentages :=
  { red := red, green := green, blue := blue }

/-- `ColorBlindnessMode::percentages`: the fixed per-mode mixing table,
transcribed literally from the `match` in the source. -/
def ColorBlindnessMode.percentages : ColorBlindnessMode → ColorBlindnessPercentages
  | ColorBlindnessMode.Normal => ColorBlindnessPercentages.new Vec3.X Vec3.Y Vec3.Z
  | ColorBlindnessMode.Protanopia => ColorBlindnessPercentages.new
      ⟨0.56667, 0.43333, 0.0⟩
      ⟨0.55833, 0.44167, 0.0⟩
      ⟨0.0, 0.24167, 0.75833⟩
  | ColorBlindnessMode.Protanomaly => ColorBlindnessPercentages.new
      ⟨0.81667, 0.18333, 0.0⟩
      ⟨0.33333, 0.66667, 0.0⟩
      ⟨0.0, 0.125, 0.875⟩
  | ColorBlindnessMode.Deuteranopia => ColorBlindnessPercentages.new
      ⟨0.625, 0.375, 0.0⟩
      ⟨0.70, 0.30, 0.0⟩
      ⟨0.0, 0.30, 0.70⟩
  | ColorBlindnessMode.Deuteranomaly => ColorBlindnessPercentages.new
      ⟨0.80, 0.20, 0.0⟩
      ⟨0.25833, 0.74167, 0.0⟩
      ⟨0.0, 0.14167, 0.85833⟩
  | ColorBlindnessMode.Tritanopia => ColorBlindnessPercentages.new
      ⟨0.95, 0.5, 0.0⟩
      ⟨0.0, 0.43333, 0.56667⟩
      ⟨0.0, 0.475, 0.525⟩
  | ColorBlindnessMode.Tritanomaly => ColorBlindnessPercentages.new
      ⟨0.96667, 0.3333, 0.0⟩
      ⟨0.0, 0.73333, 0.26667⟩
      ⟨0.0, 0.18333, 0.81667⟩
  | ColorBlindnessMode.Achromatopsia => ColorBlindnessPercentages.new
      ⟨0.299, 0.587, 0.114⟩
      ⟨0.299, 0.587, 0.114⟩
      ⟨0.299, 0.587, 0.114⟩
  | ColorBlindnessMode.Achromatomaly => ColorBlindnessPercentages.new
      ⟨0.618, 0.32, 0.62⟩
      ⟨0.163, 0.775, 0.62⟩
      ⟨0.163, 0.320, 0.516⟩

/-- `ColorBlindnessMode::cycle`: the successor in the 9-mode ring.  The
source mutates `self` in place; embedded as the pure successor function. -/
def ColorBlindnessMode.cycle : ColorBlindnessMode → ColorBlindnessMode
  | ColorBlindnessMode.Normal => ColorBlindnessMode.Protanopia
  | ColorBlindnessMode.Protanopia => ColorBlindnessMode.Protanomaly
  | ColorBlindnessMode.Protanomaly => ColorBlindnessMode.Deuteranopia
  | ColorBlindnessMode.Deuteranopia => ColorBlindnessMode.Deuteranomaly
  | ColorBlindnessMode.Deuteranomaly => ColorBlindnessMode.Tritanopia
  | ColorBlindnessMode.Tritanopia => ColorBlindnessMode.Tritanomaly
  | ColorBlindnessMode.Tritanomaly => ColorBlindnessMode.Achromatopsia
  | ColorBlindnessMode.Achromatopsia => ColorBlindnessMode.Achromatomaly
  | ColorBlindnessMode.Achromatomaly => ColorBlindnessMode.Normal

/-- Identifier of a window (`bevy_window::WindowId`, a UUID in the host;
embedded as a natural number). -/
structure WindowId where
  id : Nat
  deriving DecidableEq

/-- `WindowId::primary()`: the fixed identifier of the primary window. -/
def WindowId.primary : WindowId := ⟨0⟩

/-- The read-only window data the crate consumes: current physical pixel
size (`Window::physical_width` / `Window::physical_height`). -/
structure Window where
  physical_width : Nat
  physical_height : Nat
  deriving DecidableEq

/-- The `Windows` resource: lookup of a window by id (`Windows::get`). -/
def Windows := WindowId → Option Window

/-- `wgpu::Extent3d`; the source sets `width`/`height` and leaves
`depth_or_array_layers` at its default of 1. -/
structure Extent3d where
  width : Nat
  height : Nat
  depth_or_array_layers : Nat := 1
  deriving DecidableEq

/-- The part of `TextureDescriptor` the crate reads or writes: the size and
the constant mip/sample counts.  The remaining fields set in the source
(label, dimension, format, usage flags) are fixed configuration constants
never read back by the crate and are not modelled. -/
structure TextureDescriptor where
  size : Extent3d
  mip_level_count : Nat := 1
  sample_count : Nat := 1
  deriving DecidableEq

/-- A `bevy_render::prelude::Image` asset, reduced to the descriptor data
the crate inspects.  The pixel data buffer (zero-filled by
`Image::resize`) is not observed by any code under verification. -/
structure Image where
  texture_descriptor : TextureDescriptor
  deriving DecidableEq

/-- `Image::resize`: sets the descriptor size in place (and re-allocates
the zero-filled data buffer, which is not modelled). -/
def Image.resize (image : Image) (size : Extent3d) : Image :=
  { image with texture_descriptor := { image.texture_descriptor with size := size } }

/-- `bevy_render::camera::RenderTarget`: a camera renders either to a
window or to an image asset.  Asset handles are embedded as indices into
the owning asset list. -/
inductive RenderTarget
  | Window (window_id : WindowId)
  | Image (handle : Nat)
  deriving DecidableEq

/-- The part of `bevy_render::camera::Camera` the crate reads and writes:
the render target and the render priority (`isize` in the host, embedded
as `Int`). -/
structure Camera where
  target : RenderTarget
  priority : Int
  deriving DecidableEq

/-- `struct ColorBlindnessCamera`: the per-camera marker carrying the
selected mode and the enabled flag. -/
structure ColorBlindnessCamera where
  mode : ColorBlindnessMode
  enabled : Bool
  deriving DecidableEq

/-- `struct FitToWindowSize`: records which offscreen image must track
which window. -/
structure FitToWindowSize where
  image : Nat
  window_id : WindowId
  deriving DecidableEq

/-- `struct ColorBlindnessMaterial`: the full-screen material binding the
offscreen texture and the current mixing percentages. -/
structure ColorBlindnessMaterial where
  source_image : Nat
  percentages : ColorBlindnessPercentages
  deriving DecidableEq

/-- Mesh data inserted by the setup system: positions, indices, normals
and UVs (components are `f32` in the host, embedded as rationals). -/
structure Mesh where
  positions : List (ℚ × ℚ × ℚ)
  indices : List Nat
  normals : List (ℚ × ℚ × ℚ)
  uvs : List (ℚ × ℚ)
  deriving DecidableEq

/-- The oversized triangle built in `setup_new_color_blindness_cameras`,
with the literal attribute data of the source (`half_extents` is half the
target size). -/
def triangle_mesh (size : Extent3d) : Mesh :=
  let half_x : ℚ := (size.width : ℚ) / 2
  let half_y : ℚ := (size.height : ℚ) / 2
  { positions := [(-half_x, -half_y, 0), (half_x * 3, -half_y, 0), (-half_x, half_y * 3, 0)]
    indices := [0, 1, 2]
    normals := [(0, 0, 1), (0, 0, 1), (0, 0, 1)]
    uvs := [(2, 0), (0, 2), (0, 0)] }

/-- Modelled from the spec: `shape::Quad::new(w, h)` (bevy_render, part of
the repository but not under src/) produces a window-sized quad centred at
the origin.  The setup system adds this mesh to the asset store but never
uses the returned handle; only the fact that a second mesh is added
matters to any claim. -/
def quad_mesh (size : Extent3d) : Mesh :=
  let half_x : ℚ := (size.width : ℚ) / 2
  let half_y : ℚ := (size.height : ℚ) / 2
  { positions := [(-half_x, -half_y, 0), (half_x, -half_y, 0), (half_x, half_y, 0), (-half_x, half_y, 0)]
    indices := [0, 2, 1, 0, 3, 2]
    normals := [(0, 0, 1), (0, 0, 1), (0, 0, 1), (0, 0, 1)]
    uvs := [(0, 1), (1, 1), (1, 0), (0, 0)] }

/-- Modelled from the spec: `RenderLayers::TOTAL_LAYERS` (bevy_render,
part of the repository but not under src/) is the number of available
render layers, 32; the crate reserves the numerically last one. -/
def RenderLayers.TOTAL_LAYERS : Nat := 32

/-- The isolation layer used for the post-processing pass:
`RenderLayers::layer((RenderLayers::TOTAL_LAYERS - 1) as u8)`. -/
def post_processing_pass_layer : Nat := RenderLayers.TOTAL_LAYERS - 1

/-- A camera entity as seen by the setup system: the `Camera` and
`ColorBlindnessCamera` components it queries, plus the components the
system may insert on it (material handle, `UiCameraConfig` with `show_ui`,
`FitToWindowSize`). -/
structure CameraEntity where
  camera : Camera
  cb : ColorBlindnessCamera
  material : Option Nat := none
  show_ui : Option Bool := none
  fit : Option FitToWindowSize := none
  deriving DecidableEq

/-- The full-screen draw entity spawned by setup
(`MaterialMesh2dBundle` plus the isolation render layer). -/
structure DrawEntity where
  mesh : Nat
  material : Nat
  translation : ℚ × ℚ × ℚ
  layer : Nat
  deriving DecidableEq

/-- The relay camera spawned by setup (`Camera2dBundle` plus the isolation
render layer); only the fields the source sets explicitly are modelled. -/
structure RelayCamera where
  priority : Int
  target : RenderTarget
  layer : Nat
  deriving DecidableEq

/-- The mutable world state threaded through the setup system: the four
asset/entity stores it writes.  Asset stores are arenas, a handle being
the index at which `add` appended the asset. -/
structure SetupState where
  images : List Image
  meshes : List Mesh
  materials : List ColorBlindnessMaterial
  draws : List DrawEntity
  relays : List RelayCamera
  deriving DecidableEq

/-- Target-size resolution at the top of the setup loop body: reads the
physical size of the target window (recording its id), or the descriptor
size of the target image; the `expect` panics of the source are embedded
as errors carrying the panic messages. -/
def resolve_size (windows : Windows) (images : List Image) :
    RenderTarget → Except String (Extent3d × Option WindowId)
  | RenderTarget.Window window_id =>
    match windows window_id with
    | none => Except.error
        "ColorBlindnessCamera is rendering to a window, but this window could not be found"
    | some window => Except.ok
        ({ width := window.physical_width, height := window.physical_height }, some window_id)
  | RenderTarget.Image handle =>
    match images[handle]? with
    | none => Except.error
        "ColorBlindnessCamera is rendering to an Image, but this Image could not be found"
    | some image => Except.ok (image.texture_descriptor.size, none)

/-- The offscreen texture created by setup: a fresh `Image` at the
resolved size, single mip level and sample (then zero-filled by
`image.resize(size)`). -/
def new_image (size : Extent3d) : Image :=
  { texture_descriptor := { size := size } }

/-- The success path of the setup loop body, after the target size
resolved to `size` (and, for window targets, `option_window_id`):
creates the offscreen texture, the triangle and quad meshes and the
material; inserts the material handle, `UiCameraConfig { show_ui: false }`
and (for window targets) `FitToWindowSize` on the tagged camera; redirects
the camera target to the offscreen texture; spawns the full-screen draw
and the relay camera. -/
def setup_apply (st : SetupState) (e : CameraEntity) (size : Extent3d)
    (option_window_id : Option WindowId) : CameraEntity × SetupState :=
  let original_target := e.camera.target
  let image_handle := st.images.length
  let images := st.images ++ [new_image size]
  let triangle_handle := st.meshes.length
  let meshes := st.meshes ++ [triangle_mesh size] ++ [quad_mesh size]
  let material_handle := st.materials.length
  let materials := st.materials ++
    [{ source_image := image_handle, percentages := e.cb.mode.percentages }]
  let e' : CameraEntity :=
    { e with
      material := some material_handle
      show_ui := some false
      fit := match option_window_id with
             | some window_id => some { image := image_handle, window_id := window_id }
             | none => e.fit
      camera := { e.camera with target := RenderTarget.Image image_handle } }
  let draws := st.draws ++
    [{ mesh := triangle_handle, material := material_handle,
       translation := (0, 0, 1.5), layer := post_processing_pass_layer }]
  let relays := st.relays ++
    [{ priority := e.camera.priority + 10, target := original_target,
       layer := post_processing_pass_layer }]
  (e', { images := images, meshes := meshes, materials := materials,
         draws := draws, relays := relays })

/-- Loop body of `setup_new_color_blindness_cameras` for one tagged
camera. -/
def setup_one (windows : Windows) (st : SetupState) (e : CameraEntity) :
    Except String (CameraEntity × SetupState) :=
  match resolve_size windows st.images e.camera.target with
  | Except.error msg => Except.error msg
  | Except.ok (size, option_window_id) => Except.ok (setup_apply st e size option_window_id)

/-- `setup_new_color_blindness_cameras`: processes, in order, every camera
matched by the `Added<ColorBlindnessCamera>` query this frame, threading
the world state; returns the updated camera entities and state. -/
def setup_new_color_blindness_cameras (windows : Windows) :
    List CameraEntity → SetupState → Except String (List CameraEntity × SetupState)
  | [], st => Except.ok ([], st)
  | e :: rest, st =>
    match setup_one windows st e with
    | Except.error msg => Except.error msg
    | Except.ok (e', st') =>
      match setup_new_color_blindness_cameras windows rest st' with
      | Except.error msg => Except.error msg
      | Except.ok (es, st'') => Except.ok (e' :: es, st'')

/-- The inline `let mode = if camera.enabled { &camera.mode } else
{ &ColorBlindnessMode::Normal }` of `update_percentages`, named so the
claims can refer to it. -/
def effective_mode (camera : ColorBlindnessCamera) : ColorBlindnessMode :=
  if camera.enabled then camera.mode else ColorBlindnessMode.Normal

/-- `update_percentages`: for each camera in the `Changed` query (each
entry is a material handle, the marker component, and the changed flag of
the host change detection), writes `percentages(effective mode)` into the
material; the `unwrap` panic on a missing material is embedded as an
error.  The returned `Nat` counts the material writes performed.

Modelled from the spec: the `Changed<ColorBlindnessCamera>` query filter
(bevy_ecs, part of the repository but not under src/) presents to the
system exactly those cameras whose mode or enabled state changed since the
previous frame; it is embedded as the per-camera `Bool` in each query
entry, `true` exactly on the frame after a change. -/
def update_percentages :
    List (Nat × ColorBlindnessCamera × Bool) → List ColorBlindnessMaterial →
    Except String (List ColorBlindnessMaterial × Nat)
  | [], materials => Except.ok (materials, 0)
  | (handle, camera, changed) :: rest, materials =>
    if changed then
      match materials[handle]? with
      | none => Except.error "called Option::unwrap() on a None value"
      | some mat =>
        match update_percentages rest
            (materials.set handle
              { mat with percentages := (effective_mode camera).percentages }) with
        | Except.error msg => Except.error msg
        | Except.ok (ms, writes) => Except.ok (ms, writes + 1)
    else
      update_percentages rest materials

/-- A window-resize event (`bevy_window::WindowResized`); the system under
verification reads only the `id` field. -/
structure WindowResized where
  id : WindowId
  width : ℚ := 0
  height : ℚ := 0
  deriving DecidableEq

/-- Inner loop of `update_image_to_window_size`: for every
`FitToWindowSize` component, re-reads the physical size of its tracked
window, resizes the tracked image in place and emits an
`AssetEvent::Modified` for it (the emitted handle list is the event
writer).  The `expect` panics are embedded as errors. -/
def fit_all (windows : Windows) :
    List FitToWindowSize → List Image → List Nat →
    Except String (List Image × List Nat)
  | [], images, events => Except.ok (images, events)
  | fit_to_window :: rest, images, events =>
    match windows fit_to_window.window_id with
    | none => Except.error
        "ColorBlindnessCamera is rendering to a window, but this window could not be found"
    | some window =>
      let size : Extent3d :=
        { width := window.physical_width, height := window.physical_height }
      match images[fit_to_window.image]? with
      | none => Except.error
          "FitToScreenSize is referring to an Image, but this Image could not be found"
      | some image =>
        fit_all windows rest (images.set fit_to_window.image (Image.resize image size))
          (events ++ [fit_to_window.image])

/-- Outer loop of `update_image_to_window_size` over the frame resize
events: the source guards every event with
`resize_event.id == WindowId::primary()` before running the inner loop. -/
def update_image_loop (windows : Windows) :
    List WindowResized → List FitToWindowSize → List Image → List Nat →
    Except String (List Image × List Nat)
  | [], _, images, events => Except.ok (images, events)
  | resize_event :: rest, fits, images, events =>
    if resize_event.id = WindowId.primary then
      match fit_all windows fits images events with
      | Except.error msg => Except.error msg
      | Except.ok (images', events') => update_image_loop windows rest fits images' events'
    else
      update_image_loop windows rest fits images events

/-- `update_image_to_window_size`: processes the resize events of one
frame against the current `FitToWindowSize` components and image assets;
returns the updated image assets and the list of emitted
`AssetEvent::Modified` handles. -/
def update_image_to_window_size (windows : Windows) (resize_events : List WindowResized)
    (fits : List FitToWindowSize) (images : List Image) :
    Except String (List Image × List Nat) :=
  update_image_loop windows resize_events fits images []

/-- Modelled from the spec: the `Added<ColorBlindnessCamera>` query filter
(bevy_ecs, part of the repository but not under src/) is edge-triggered:
with the setup system running once per frame, a system run at frame
`currentTick` whose previous run was at `lastRun` matches exactly the
entities whose marker was added at a tick in `(lastRun, currentTick]`. -/
def added_matches (lastRun currentTick addedTick : Nat) : Prop :=
  lastRun < addedTick ∧ addedTick ≤ currentTick

instance (lastRun currentTick addedTick : Nat) :
    Decidable (added_matches lastRun currentTick addedTick) :=
  inferInstanceAs (Decidable (_ ∧ _))

/-- Number of frames, among frames `1..n` (the system running each frame,
frame `k` having last-run tick `k - 1`), in which an entity whose marker
was added at tick `addedTick` is matched by the `Added` query. -/
def times_matched (addedTick : Nat) : Nat → Nat
  | 0 => 0
  | n + 1 => times_matched addedTick n + (if added_matches n (n + 1) addedTick then 1 else 0)

/-- Concrete window table with only the primary window, of physical size
800 by 600. -/
def example_windows : Windows := fun window_id =>
  if window_id = ⟨0⟩ then some { physical_width := 800, physical_height := 600 } else none

/-- Concrete window table with two windows: the primary window 0
(800 by 600) and a secondary window 1 (1024 by 768). -/
def example_windows_two : Windows := fun window_id =>
  if window_id = ⟨0⟩ then some { physical_width := 800, physical_height := 600 }
  else if window_id = ⟨1⟩ then some { physical_width := 1024, physical_height := 768 }
  else none

/-- Concrete tagged camera: targets the primary window, priority 0,
mode Protanopia with the simulation disabled. -/
def example_entity : CameraEntity :=
  { camera := { target := RenderTarget.Window ⟨0⟩, priority := 0 },
    cb := { mode := ColorBlindnessMode.Protanopia, enabled := false } }

/-- The empty world state. -/
def empty_state : SetupState :=
  { images := [], meshes := [], materials := [], draws := [], relays := [] }

/-- The size resolved for `example_entity` under `example_windows`. -/
def example_size : Extent3d := { width := 800, height := 600 }

/-- The camera entity produced by running setup on `example_entity`. -/
def example_result_entity : CameraEntity :=
  { camera := { target := RenderTarget.Image 0, priority := 0 },
    cb := { mode := ColorBlindnessMode.Protanopia, enabled := false },
    material := some 0,
    show_ui := some false,
    fit := some { image := 0, window_id := ⟨0⟩ } }

/-- The world state produced by running setup on `example_entity` from
`empty_state`. -/
def example_result_state : SetupState :=
  { images := [new_image example_size],
    meshes := [triangle_mesh example_size, quad_mesh example_size],
    materials := [{ source_image := 0,
                    percentages := ColorBlindnessMode.percentages ColorBlindnessMode.Protanopia }],
    draws := [{ mesh := 0, material := 0, translation := (0, 0, 1.5),
                layer := post_processing_pass_layer }],
    relays := [{ priority := 10, target := RenderTarget.Window ⟨0⟩,
                 layer := post_processing_pass_layer }] }

/-- A `FitToWindowSize` component, as inserted by setup for a camera
targeting the secondary window 1, tracking image asset 0. -/
def example_fit : FitToWindowSize := { image := 0, window_id := ⟨1⟩ }

/-- Image asset 0 at a stale size 640 by 480, smaller than every window of
`example_windows_two`. -/
def stale_image : Image := { texture_descriptor := { size := { width := 640, height := 480 } } }

/-- A window table in which no window resolves. -/
def no_windows : Windows := fun _ => none

/-- C9: `percentages(Normal)` is exactly the identity matrix: red row
(1,0,0), green row (0,1,0), blue row (0,0,1). -/
theorem C9_normal_identity :
    ColorBlindnessMode.percentages ColorBlindnessMode.Normal =
      { red := ⟨1, 0, 0⟩, green := ⟨0, 1, 0⟩, blue := ⟨0, 0, 1⟩ } := rfl

/-- C2 fails on the code: the claim says every row of `percentages(mode)`
sums to a value in [0,1], but the red row of Tritanopia is
(0.95, 0.5, 0.0), summing to 1.45; the red row of Tritanomaly sums to
1.29997 and the red and green rows of Achromatomaly sum to 1.558.  The
reference table cited by the source has 0.05, 0.03333 and 0.062 at these
slots (rows summing to 1), so these are transcription slips in the code. -/
theorem C2_row_sums_exceed_one :
    (ColorBlindnessMode.percentages ColorBlindnessMode.Tritanopia).red.sum = 29 / 20 ∧
    ¬ (ColorBlindnessMode.percentages ColorBlindnessMode.Tritanopia).red.sum ≤ 1 ∧
    ¬ (ColorBlindnessMode.percentages ColorBlindnessMode.Tritanomaly).red.sum ≤ 1 ∧
    ¬ (ColorBlindnessMode.percentages ColorBlindnessMode.Achromatomaly).red.sum ≤ 1 ∧
    ¬ (ColorBlindnessMode.percentages ColorBlindnessMode.Achromatomaly).green.sum ≤ 1 := by
  refine ⟨?_, ?_, ?_, ?_, ?_⟩ <;>
    norm_num [ColorBlindnessMode.percentages, ColorBlindnessPercentages.new, Vec3.sum]

/-- C1 fails on the code: `update_image_to_window_size` guards every
resize event with `resize_event.id == WindowId::primary()` instead of
comparing it with `fit_to_window.window_id`.  First conjunct: a camera
set up against the secondary window 1 (component `example_fit`, stale
640 by 480 texture) receives a resize event for that very window, yet the
texture keeps its old size and no Modified event is emitted — the claim
requires a resize to 1024 by 768 plus a notification.  Second conjunct:
a resize event for the primary window 0 — a different window from the one
the camera targets — resizes that same texture and emits a Modified
event for it, which the claim forbids. -/
theorem C1_resize_primary_guard :
    update_image_to_window_size example_windows_two
        [{ id := ⟨1⟩ }] [example_fit] [stale_image] =
      Except.ok ([stale_image], []) ∧
    update_image_to_window_size example_windows_two
        [{ id := ⟨0⟩ }] [example_fit] [stale_image] =
      Except.ok ([{ texture_descriptor := { size := { width := 1024, height := 768 } } }], [0]) :=
  ⟨rfl, rfl⟩

/-- C6: `cycle` is a total bijection on the 9-element mode set forming a
single cycle of length 9: iterating it 9 times from any mode returns that
mode, applying it once never returns the same mode, and every mode is
reached from Normal within the first 9 iterates. -/
theorem C6_cycle_ring :
    ∀ m : ColorBlindnessMode,
      ColorBlindnessMode.cycle^[9] m = m ∧
      ColorBlindnessMode.cycle m ≠ m ∧
      ∃ k, k < 9 ∧ ColorBlindnessMode.cycle^[k] ColorBlindnessMode.Normal = m := by
  intro m
  cases m
  · exact ⟨by decide, by decide, 0, by decide, by decide⟩
  · exact ⟨by decide, by decide, 1, by decide, by decide⟩
  · exact ⟨by decide, by decide, 2, by decide, by decide⟩
  · exact ⟨by decide, by decide, 3, by decide, by decide⟩
  · exact ⟨by decide, by decide, 4, by decide, by decide⟩
  · exact ⟨by decide, by decide, 5, by decide, by decide⟩
  · exact ⟨by decide, by decide, 6, by decide, by decide⟩
  · exact ⟨by decide, by decide, 7, by decide, by decide⟩
  · exact ⟨by decide, by decide, 8, by decide, by decide⟩

/-- Witness for C6 at the concrete mode Protanopia. -/
theorem C6_cycle_ring_witness :
    ColorBlindnessMode.cycle^[9] ColorBlindnessMode.Protanopia = ColorBlindnessMode.Protanopia ∧
    ColorBlindnessMode.cycle ColorBlindnessMode.Protanopia ≠ ColorBlindnessMode.Protanopia ∧
    ∃ k, k < 9 ∧
      ColorBlindnessMode.cycle^[k] ColorBlindnessMode.Normal = ColorBlindnessMode.Protanopia :=
  C6_cycle_ring ColorBlindnessMode.Protanopia

/-- C3: the per-frame mode-sync system writes
`percentages(effective mode)` into the material of every changed camera
(so the material tracks `percentages(effective_mode)`), performs no write
and leaves the materials untouched on frames where no camera changed, and
the effective mode is the camera mode when enabled and Normal when
disabled. -/
theorem C3_mode_sync :
    (∀ (handle : Nat) (camera : ColorBlindnessCamera)
       (materials : List ColorBlindnessMaterial) (mat : ColorBlindnessMaterial),
      materials[handle]? = some mat →
      update_percentages [(handle, camera, true)] materials =
        Except.ok
          (materials.set handle
            { mat with percentages := (effective_mode camera).percentages }, 1)) ∧
    (∀ (cameras : List (Nat × ColorBlindnessCamera × Bool))
       (materials : List ColorBlindnessMaterial),
      (∀ c ∈ cameras, c.2.2 = false) →
      update_percentages cameras materials = Except.ok (materials, 0)) ∧
    (∀ m : ColorBlindnessMode,
      effective_mode { mode := m, enabled := true } = m ∧
      effective_mode { mode := m, enabled := false } = ColorBlindnessMode.Normal) := by
  refine ⟨?_, ?_, ?_⟩
  · intro handle camera materials mat h
    simp [update_percentages, h]
  · intro cameras
    induction cameras with
    | nil => intro materials _; rfl
    | cons c rest ih =>
      intro materials h
      obtain ⟨handle, camera, changed⟩ := c
      have hc : changed = false := h (handle, camera, changed) (List.mem_cons_self _ _)
      subst hc
      exact ih materials fun c hc => h c (List.mem_cons_of_mem _ hc)
  · intro m
    exact ⟨rfl, rfl⟩

/-- Witness for C3 at a concrete changed camera: a Deuteranopia, enabled
camera whose material currently holds the Normal matrix gets exactly one
write, installing `percentages(Deuteranopia)`. -/
theorem C3_mode_sync_witness :
    update_percentages
        [(0, { mode := ColorBlindnessMode.Deuteranopia, enabled := true }, true)]
        [{ source_image := 0,
           percentages := ColorBlindnessMode.percentages ColorBlindnessMode.Normal }] =
      Except.ok
        (([{ source_image := 0,
             percentages := ColorBlindnessMode.percentages ColorBlindnessMode.Normal }] :
            List ColorBlindnessMaterial).set 0
          { source_image := 0,
            percentages :=
              (effective_mode
                { mode := ColorBlindnessMode.Deuteranopia, enabled := true }).percentages },
         1) :=
  C3_mode_sync.1 0 { mode := ColorBlindnessMode.Deuteranopia, enabled := true }
    [{ source_image := 0,
       percentages := ColorBlindnessMode.percentages ColorBlindnessMode.Normal }]
    { source_image := 0,
      percentages := ColorBlindnessMode.percentages ColorBlindnessMode.Normal } rfl

theorem times_matched_zero_of_gt : ∀ n t : Nat, n < t → times_matched t n = 0 := by
  intro n
  induction n with
  | zero => intro t _; rfl
  | succ m ih =>
    intro t h
    have h1 : ¬ added_matches m (m + 1) t := by
      simp only [added_matches, not_and]; omega
    simp [times_matched, h1, ih t (by omega)]

theorem times_matched_eq_one (t : Nat) (h1 : 1 ≤ t) : ∀ n, t ≤ n → times_matched t n = 1 := by
  intro n
  induction n with
  | zero => intro h2; exact absurd h1 (by omega)
  | succ m ih =>
    intro h2
    by_cases hc : t ≤ m
    · have h0 : ¬ added_matches m (m + 1) t := by
        simp only [added_matches, not_and]; omega
      simp [times_matched, h0, ih hc]
    · have h0 : added_matches m (m + 1) t := by
        constructor <;> omega
      have hz : times_matched t m = 0 := times_matched_zero_of_gt m t (by omega)
      simp [times_matched, h0, hz]

theorem setup_one_ok_inv (windows : Windows) (st : SetupState) (e : CameraEntity)
    (e' : CameraEntity) (st' : SetupState)
    (h : setup_one windows st e = Except.ok (e', st')) :
    ∃ size option_window_id,
      resolve_size windows st.images e.camera.target = Except.ok (size, option_window_id) ∧
      e' = (setup_apply st e size option_window_id).1 ∧
      st' = (setup_apply st e size option_window_id).2 := by
  unfold setup_one at h
  cases hres : resolve_size windows st.images e.camera.target with
  | error msg => rw [hres] at h; exact Except.noConfusion h
  | ok v =>
    obtain ⟨size, option_window_id⟩ := v
    rw [hres] at h
    injection h with h2
    exact ⟨size, option_window_id, rfl,
      (congrArg Prod.fst h2).symm, (congrArg Prod.snd h2).symm⟩

theorem setup_one_lengths (windows : Windows) (st : SetupState) (e : CameraEntity)
    (e' : CameraEntity) (st' : SetupState)
    (h : setup_one windows st e = Except.ok (e', st')) :
    st'.images.length = st.images.length + 1 ∧
    st'.draws.length = st.draws.length + 1 ∧
    st'.relays.length = st.relays.length + 1 := by
  obtain ⟨size, owid, -, -, hst⟩ := setup_one_ok_inv windows st e e' st' h
  subst hst
  simp [setup_apply]

/-- C4: the pass builder is edge-triggered, not level-triggered: an entity
whose marker component was added at tick `addedTick` is matched by the
`Added` query in exactly one of the frames `1..n` (first conjunct), and
one successful run of the setup system over the cameras matched this
frame creates exactly one offscreen texture, one full-screen draw entity
and one relay camera per matched camera — `added.length` of each in
total, also when several tagged cameras exist at once (second
conjunct). -/
theorem C4_setup_once :
    (∀ addedTick n : Nat, 1 ≤ addedTick → addedTick ≤ n →
      times_matched addedTick n = 1) ∧
    (∀ (windows : Windows) (added : List CameraEntity) (st : SetupState)
       (es : List CameraEntity) (st' : SetupState),
      setup_new_color_blindness_cameras windows added st = Except.ok (es, st') →
      st'.images.length = st.images.length + added.length ∧
      st'.draws.length = st.draws.length + added.length ∧
      st'.relays.length = st.relays.length + added.length) := by
  constructor
  · intro t n h1 h2
    exact times_matched_eq_one t h1 n h2
  · intro windows added
    induction added with
    | nil =>
      intro st es st' h
      injection h with h2
      injection h2 with h3 h4
      subst h4
      simp
    | cons e rest ih =>
      intro st es st' h
      unfold setup_new_color_blindness_cameras at h
      split at h
      · exact Except.noConfusion h
      · rename_i e1 st1 heq1
        split at h
        · exact Except.noConfusion h
        · rename_i es2 st2 heq2
          injection h with h3
          injection h3 with h4 h5
          subst h5
          obtain ⟨l1i, l1d, l1r⟩ := setup_one_lengths windows st e e1 st1 heq1
          obtain ⟨l2i, l2d, l2r⟩ := ih st1 es2 st2 heq2
          simp only [List.length_cons]
          refine ⟨?_, ?_, ?_⟩ <;> omega

/-- Witness for C4: a marker added at tick 3 is matched in exactly one of
frames 1..5, and the concrete run on `example_entity` creates exactly one
image, one draw and one relay. -/
theorem C4_setup_once_witness :
    times_matched 3 5 = 1 ∧
    (example_result_state.images.length = empty_state.images.length + [example_entity].length ∧
     example_result_state.draws.length = empty_state.draws.length + [example_entity].length ∧
     example_result_state.relays.length = empty_state.relays.length + [example_entity].length) :=
  ⟨C4_setup_once.1 3 5 (by omega) (by omega),
   C4_setup_once.2 example_windows [example_entity] empty_state
     [example_result_entity] example_result_state rfl⟩

/-- C5: whenever the target size of a tagged camera resolves, setup
succeeds and afterwards the tagged camera renders to the newly created
offscreen texture (the image appended at handle `st.images.length`),
while the relay camera renders to the original target the tagged camera
had before the mutation. -/
theorem C5_render_targets :
    ∀ (windows : Windows) (st : SetupState) (e : CameraEntity)
      (size : Extent3d) (option_window_id : Option WindowId),
      resolve_size windows st.images e.camera.target = Except.ok (size, option_window_id) →
      ∃ e' st',
        setup_one windows st e = Except.ok (e', st') ∧
        e'.camera.target = RenderTarget.Image st.images.length ∧
        st'.images = st.images ++ [new_image size] ∧
        st'.relays = st.relays ++
          [{ priority := e.camera.priority + 10, target := e.camera.target,
             layer := post_processing_pass_layer }] := by
  intro windows st e size option_window_id h
  refine ⟨(setup_apply st e size option_window_id).1,
    (setup_apply st e size option_window_id).2, ?_, rfl, rfl, rfl⟩
  unfold setup_one
  rw [h]

/-- Witness for C5 at the concrete camera `example_entity`. -/
theorem C5_render_targets_witness :
    ∃ e' st',
      setup_one example_windows empty_state example_entity = Except.ok (e', st') ∧
      e'.camera.target = RenderTarget.Image empty_state.images.length ∧
      st'.images = empty_state.images ++ [new_image example_size] ∧
      st'.relays = empty_state.relays ++
        [{ priority := example_entity.camera.priority + 10,
           target := example_entity.camera.target,
           layer := post_processing_pass_layer }] :=
  C5_render_targets example_windows empty_state example_entity example_size (some ⟨0⟩) rfl

/-- C7: for every constructed pair, the relay camera priority is the
tagged camera priority plus the fixed offset 10 (the same constant for
all pairs), hence strictly greater. -/
theorem C7_relay_priority :
    ∀ (windows : Windows) (st : SetupState) (e : CameraEntity)
      (size : Extent3d) (option_window_id : Option WindowId),
      resolve_size windows st.images e.camera.target = Except.ok (size, option_window_id) →
      ∃ e' st' relay,
        setup_one windows st e = Except.ok (e', st') ∧
        st'.relays = st.relays ++ [relay] ∧
        relay.priority = e.camera.priority + 10 ∧
        e.camera.priority < relay.priority := by
  intro windows st e size option_window_id h
  refine ⟨(setup_apply st e size option_window_id).1,
    (setup_apply st e size option_window_id).2,
    { priority := e.camera.priority + 10, target := e.camera.target,
      layer := post_processing_pass_layer }, ?_, rfl, rfl,
    (by omega : e.camera.priority < e.camera.priority + 10)⟩
  unfold setup_one
  rw [h]

/-- Witness for C7 at the concrete camera `example_entity`. -/
theorem C7_relay_priority_witness :
    ∃ e' st' relay,
      setup_one example_windows empty_state example_entity = Except.ok (e', st') ∧
      st'.relays = empty_state.relays ++ [relay] ∧
      relay.priority = example_entity.camera.priority + 10 ∧
      example_entity.camera.priority < relay.priority :=
  C7_relay_priority example_windows empty_state example_entity example_size (some ⟨0⟩) rfl

/-- C8: the failure paths are loud, not defaulting.  If the target window
of a tagged camera cannot be resolved at setup time, setup aborts with
the descriptive window message; if the target image cannot be resolved,
setup aborts with the descriptive image message; if at mode-sync time the
material handle of a changed camera no longer resolves, the sync aborts
with the unwrap failure.  In no case is a default size substituted or the
update silently skipped. -/
theorem C8_fail_loudly :
    (∀ (windows : Windows) (st : SetupState) (e : CameraEntity) (window_id : WindowId),
      e.camera.target = RenderTarget.Window window_id →
      windows window_id = none →
      setup_one windows st e = Except.error
        "ColorBlindnessCamera is rendering to a window, but this window could not be found") ∧
    (∀ (windows : Windows) (st : SetupState) (e : CameraEntity) (handle : Nat),
      e.camera.target = RenderTarget.Image handle →
      st.images[handle]? = none →
      setup_one windows st e = Except.error
        "ColorBlindnessCamera is rendering to an Image, but this Image could not be found") ∧
    (∀ (handle : Nat) (camera : ColorBlindnessCamera)
       (rest : List (Nat × ColorBlindnessCamera × Bool))
       (materials : List ColorBlindnessMaterial),
      materials[handle]? = none →
      update_percentages ((handle, camera, true) :: rest) materials =
        Except.error "called Option::unwrap() on a None value") := by
  refine ⟨?_, ?_, ?_⟩
  · intro windows st e window_id ht hw
    simp [setup_one, resolve_size, ht, hw]
  · intro windows st e handle ht hi
    simp [setup_one, resolve_size, ht, hi]
  · intro handle camera rest materials h
    simp [update_percentages, h]

/-- Witness for C8: under an empty window table, setup for
`example_entity` aborts with the descriptive window failure. -/
theorem C8_fail_loudly_witness :
    setup_one no_windows empty_state example_entity = Except.error
      "ColorBlindnessCamera is rendering to a window, but this window could not be found" :=
  C8_fail_loudly.1 no_windows empty_state example_entity ⟨0⟩ rfl rfl

/-- C10: at setup time the full-screen material is initialised with
`percentages(camera.mode)` unconditionally — the enabled flag is not
consulted — so a camera created with enabled = false and a non-Normal
mode (for instance Protanopia) starts with the simulation matrix of that
mode, which differs from the Normal identity matrix. -/
theorem C10_material_init :
    (∀ (windows : Windows) (st : SetupState) (e : CameraEntity)
       (size : Extent3d) (option_window_id : Option WindowId),
      resolve_size windows st.images e.camera.target = Except.ok (size, option_window_id) →
      ∃ e' st',
        setup_one windows st e = Except.ok (e', st') ∧
        st'.materials = st.materials ++
          [{ source_image := st.images.length,
             percentages := ColorBlindnessMode.percentages e.cb.mode }]) ∧
    ColorBlindnessMode.percentages ColorBlindnessMode.Protanopia ≠
      ColorBlindnessMode.percentages ColorBlindnessMode.Normal := by
  constructor
  · intro windows st e size option_window_id h
    refine ⟨(setup_apply st e size option_window_id).1,
      (setup_apply st e size option_window_id).2, ?_, rfl⟩
    unfold setup_one
    rw [h]
  · intro h
    have h2 := congrArg (fun p => p.red.x) h
    norm_num [ColorBlindnessMode.percentages, ColorBlindnessPercentages.new, Vec3.X] at h2

/-- Witness for C10 at the concrete camera `example_entity`, which has
enabled = false and mode Protanopia: the created material nevertheless
holds `percentages(Protanopia)`. -/
theorem C10_material_init_witness :
    ∃ e' st',
      setup_one example_windows empty_state example_entity = Except.ok (e', st') ∧
      st'.materials = empty_state.materials ++
        [{ source_image := empty_state.images.length,
           percentages := ColorBlindnessMode.percentages example_entity.cb.mode }] :=
  C10_material_init.1 example_windows empty_state example_entity example_size (some ⟨0⟩) rfl

end ColorBlindness
